import Mathlib

/-!
Shallow embedding of the zaplog package (src/zaplog/logger.go): a leveled
logging facade that routes records of four severities to per-level rotating
file sinks and, in development mode, mirrors them to console sinks.
-/

namespace Zaplog

/-- Severity levels, as in zapcore: Debug = -1, Info = 0, Warn = 1, Error = 2. -/
def debugLevel : Int := -1

def infoLevel : Int := 0

def warnLevel : Int := 1

def errorLevel : Int := 2

/-- How the encoder renders timestamps.  timeEncoderFmt models the package's
timeEncoder (human-readable format), timeUnixNanoFmt models timeUnixNano
(Unix milliseconds).  libDefault is the profile's own encoder before the
package overrides it. -/
inductive TimeEnc where
  | timeEncoderFmt
  | timeUnixNanoFmt
  | libDefault
deriving DecidableEq, Repr

/-- The Options record (logger.go lines 14-28).  The embedded zap.Config is
represented by the two fields the package reads: OutputPaths and
ErrorOutputPaths. -/
structure Options where
  logLevel : String := ""
  logFileDir : String := ""
  appName : String := ""
  errorFileName : String := ""
  warnFileName : String := ""
  infoFileName : String := ""
  debugFileName : String := ""
  maxSize : Int := 0
  maxBackups : Int := 0
  maxAge : Int := 0
  cutType : Int := 0
  development : Bool := false
  outputPaths : List String := []
  errorOutputPaths : List String := []
deriving DecidableEq, Repr

/-- The slice of zap.Config that loadCfg manipulates. -/
structure ZapConfig where
  level : Int
  development : Bool
  outputPaths : List String
  errorOutputPaths : List String
  encodeTime : TimeEnc
deriving DecidableEq, Repr

/-- Modelled from the zap library: zap.NewProductionConfig returns a config at
InfoLevel with stderr output paths. -/
def newProductionConfig : ZapConfig :=
  { level := infoLevel
    development := false
    outputPaths := ["stderr"]
    errorOutputPaths := ["stderr"]
    encodeTime := TimeEnc.libDefault }

/-- Modelled from the zap library: zap.NewDevelopmentConfig returns a config at
DebugLevel with stderr output paths. -/
def newDevelopmentConfig : ZapConfig :=
  { level := debugLevel
    development := true
    outputPaths := ["stderr"]
    errorOutputPaths := ["stderr"]
    encodeTime := TimeEnc.libDefault }

/-- Path separator (logger.go line 40). -/
def sp : String := "/"

/-- The zap.Config part of loadCfg (logger.go lines 85-110): choose the base
profile from the Development flag, override the time encoder, default the
output paths when the caller left them empty, then set the level from the
LogLevel string (unrecognized strings fall through, leaving the profile's
level). -/
def loadCfgZap (o : Options) : ZapConfig :=
  let base :=
    if o.development then
      { newDevelopmentConfig with encodeTime := TimeEnc.timeEncoderFmt }
    else
      { newProductionConfig with encodeTime := TimeEnc.timeUnixNanoFmt }
  let base :=
    if o.outputPaths.isEmpty then { base with outputPaths := ["stdout"] } else base
  let base :=
    if o.errorOutputPaths.isEmpty then { base with errorOutputPaths := ["stderr"] } else base
  if o.logLevel = "debug" then { base with level := debugLevel }
  else if o.logLevel = "info" then { base with level := infoLevel }
  else if o.logLevel = "warn" then { base with level := warnLevel }
  else if o.logLevel = "error" then { base with level := errorLevel }
  else base

/-- The Options-mutating part of loadCfg (logger.go lines 113-140): fill each
empty field with its default.  filepath.Abs reads the process working
directory, passed here as the cwd argument; the directory default is
cwd + "/logs/". -/
def fillDefaults (cwd : String) (o : Options) : Options :=
  { o with
    logFileDir := if o.logFileDir = "" then cwd ++ sp ++ "logs" ++ sp else o.logFileDir
    appName := if o.appName = "" then "app" else o.appName
    errorFileName := if o.errorFileName = "" then "error.log" else o.errorFileName
    warnFileName := if o.warnFileName = "" then "warn.log" else o.warnFileName
    infoFileName := if o.infoFileName = "" then "info.log" else o.infoFileName
    debugFileName := if o.debugFileName = "" then "debug.log" else o.debugFileName
    maxSize := if o.maxSize = 0 then 100 else o.maxSize
    maxBackups := if o.maxBackups = 0 then 30 else o.maxBackups
    maxAge := if o.maxAge = 0 then 30 else o.maxAge }

/-- Whole loadCfg (logger.go lines 85-141): resolved zap config plus the
defaulted Options record. -/
def loadCfg (cwd : String) (o : Options) : ZapConfig × Options :=
  (loadCfgZap o, fillDefaults cwd o)

/-- Durations in nanoseconds, as Go's time package counts them. -/
def minuteDuration : Int := 60 * 1000000000

def hourDuration : Int := 3600 * 1000000000

/-- Configuration handed to the lumberjack size-based rotation backend
(logger.go lines 147-154). -/
structure LumberConfig where
  filename : String
  maxSize : Int
  maxBackups : Int
  maxAge : Int
  compress : Bool
  localTime : Bool
deriving DecidableEq, Repr

/-- Configuration handed to the rotatelogs time-based rotation backend
(logger.go lines 157-162). -/
structure RotateConfig where
  pattern : String
  linkName : String
  maxAge : Int
  rotationTime : Int
deriving DecidableEq, Repr

def lumberConfig (o : Options) (fName : String) : LumberConfig :=
  { filename := o.logFileDir ++ sp ++ o.appName ++ "-" ++ fName
    maxSize := o.maxSize
    maxBackups := o.maxBackups
    maxAge := o.maxAge
    compress := true
    localTime := true }

def timeSinkConfig (o : Options) (fName : String) : RotateConfig :=
  { pattern := o.logFileDir ++ sp ++ o.appName ++ "-" ++ fName ++ ".%Y_%m%d_%H"
    linkName := o.logFileDir ++ sp ++ o.appName ++ "-" ++ fName
    maxAge := o.maxAge * 24 * hourDuration
    rotationTime := minuteDuration }

/-- A write syncer produced by the sink factory: either a sink wrapping one of
the two backends, or the nil handle that results from wrapping the value a
failed rotatelogs constructor returned (its error is discarded). -/
inductive Syncer where
  | lumber (cfg : LumberConfig)
  | rotate (cfg : RotateConfig)
  | nilSyncer
deriving DecidableEq, Repr

/-- The closure f inside setSyncers (logger.go lines 144-165), parameterized by
the outcome of the external rotatelogs constructor for the given file name.
On the size-based path lumberjack is built by an infallible struct literal;
on the time-based path a constructor error is discarded (the error return is
bound to the blank identifier) and the nil handle is wrapped. -/
def makeSyncer (o : Options) (fName : String)
    (rotateResult : Except String RotateConfig) : Syncer :=
  if o.cutType = 0 then
    Syncer.lumber (lumberConfig o fName)
  else
    match rotateResult with
    | Except.ok cfg => Syncer.rotate cfg
    | Except.error _ => Syncer.nilSyncer

/-- The four package-level write syncers (logger.go lines 166-169). -/
structure Syncers where
  errWS : Syncer
  warnWS : Syncer
  infoWS : Syncer
  debugWS : Syncer
deriving DecidableEq, Repr

def setSyncers (o : Options) (rotRes : String → Except String RotateConfig) : Syncers :=
  { errWS := makeSyncer o o.errorFileName (rotRes o.errorFileName)
    warnWS := makeSyncer o o.warnFileName (rotRes o.warnFileName)
    infoWS := makeSyncer o o.infoFileName (rotRes o.infoFileName)
    debugWS := makeSyncer o o.debugFileName (rotRes o.debugFileName) }

/-- The level-enabler closures (logger.go lines 180-191), one per severity. -/
def errPriority (minLevel lvl : Int) : Bool :=
  decide (lvl ≥ errorLevel) && decide (errorLevel - minLevel > -1)

def warnPriority (minLevel lvl : Int) : Bool :=
  decide (lvl ≥ warnLevel) && decide (warnLevel - minLevel > -1)

def infoPriority (minLevel lvl : Int) : Bool :=
  decide (lvl ≥ infoLevel) && decide (infoLevel - minLevel > -1)

def debugPriority (minLevel lvl : Int) : Bool :=
  decide (lvl ≥ debugLevel) && decide (debugLevel - minLevel > -1)

/-- Which of the four enabler closures gates a core. -/
inductive Priority where
  | err
  | warn
  | info
  | debug
deriving DecidableEq, Repr

def Priority.level : Priority → Int
  | Priority.err => errorLevel
  | Priority.warn => warnLevel
  | Priority.info => infoLevel
  | Priority.debug => debugLevel

def Priority.enabled : Priority → Int → Int → Bool
  | Priority.err => errPriority
  | Priority.warn => warnPriority
  | Priority.info => infoPriority
  | Priority.debug => debugPriority

inductive Encoder where
  | json
  | console
deriving DecidableEq, Repr

/-- Destination of a core: one of the four per-level file syncers, or one of
the two locked console streams (logger.go lines 41-43). -/
inductive SinkId where
  | errFile
  | warnFile
  | infoFile
  | debugFile
  | stdoutConsole
  | stderrConsole
deriving DecidableEq, Repr

structure Core where
  encoder : Encoder
  sink : SinkId
  pri : Priority
deriving DecidableEq, Repr

/-- The list of cores composed into the fan-out tee (logger.go lines 192-205):
four JSON file cores always, plus four console cores in development mode
(error gated to stderr, warn/info/debug gated to stdout). -/
def cores (o : Options) : List Core :=
  [ Core.mk Encoder.json SinkId.errFile Priority.err
  , Core.mk Encoder.json SinkId.warnFile Priority.warn
  , Core.mk Encoder.json SinkId.infoFile Priority.info
  , Core.mk Encoder.json SinkId.debugFile Priority.debug ]
  ++ (if o.development then
      [ Core.mk Encoder.console SinkId.stderrConsole Priority.err
      , Core.mk Encoder.console SinkId.stdoutConsole Priority.warn
      , Core.mk Encoder.console SinkId.stdoutConsole Priority.info
      , Core.mk Encoder.console SinkId.stdoutConsole Priority.debug ]
     else [])

/-- A record at level lvl is written to core c iff the core's enabler accepts
lvl under the configured minimum level. -/
def coreAccepts (c : Core) (minLevel lvl : Int) : Bool :=
  c.pri.enabled minLevel lvl

/-- The sinks a record at level lvl is written to. -/
def sinksWritten (o : Options) (minLevel lvl : Int) : List SinkId :=
  ((cores o).filter (fun c => coreAccepts c minLevel lvl)).map Core.sink

/-- The outcome of one init run (logger.go lines 74-83): either the logger is
built (carrying the four syncers), or the process panics on a build error. -/
inductive InitResult where
  | done (s : Syncers)
  | panicked (e : String)
deriving DecidableEq, Repr

/-- The init method (logger.go lines 74-83), parameterized by the outcomes of
the external constructors: rotRes gives rotatelogs.New's result per file name,
buildRes gives zapConfig.Build's result.  A build error panics; syncer
construction never propagates an error (see makeSyncer). -/
def loggerInit (o : Options) (rotRes : String → Except String RotateConfig)
    (buildRes : Except String Unit) : InitResult :=
  let s := setSyncers o rotRes
  match buildRes with
  | Except.ok _ => InitResult.done s
  | Except.error e => InitResult.panicked e

/-- The mutable Logger slice relevant to initialization (logger.go lines
30-36).  Opts is a pointer into the heap, modelled as an address.  logOutput
collects the notices InitLogger itself logs. -/
structure LoggerState where
  optsPtr : Nat
  zapConfig : ZapConfig
  inited : Bool
  logOutput : List String
deriving Repr

/-- The world: a heap of Options records (Go pointers become addresses) plus
the package-level logger singleton. -/
structure World where
  heap : Nat → Options
  logger : LoggerState

/-- InitLogger (logger.go lines 52-67).  cfg is the optional Options pointer
argument; cwd is the process working directory read by filepath.Abs.  When
already inited it only logs a notice; otherwise it installs the argument
pointer (if given), resolves the config, writes the defaults back through the
pointer (mutating the caller's record in place), and sets the inited flag. -/
def initLogger (w : World) (cwd : String) (cfg : Option Nat) : World :=
  if w.logger.inited then
    { w with logger := { w.logger with
        logOutput := w.logger.logOutput ++ ["[initLogger] zaplog already initialized"] } }
  else
    let ptr := match cfg with
      | some p => p
      | none => w.logger.optsPtr
    let o := w.heap ptr
    { heap := fun n => if n = ptr then fillDefaults cwd o else w.heap n
      logger :=
        { optsPtr := ptr
          zapConfig := loadCfgZap o
          inited := true
          logOutput := w.logger.logOutput ++
            ["[initLogger] zap plugin initializing completed"] } }

/-- The Logger's zero-valued zap.Config before any loadCfg call (the package
init at logger.go lines 46-50 leaves it at its zero value). -/
def zeroZapConfig : ZapConfig :=
  { level := infoLevel
    development := false
    outputPaths := []
    errorOutputPaths := []
    encodeTime := TimeEnc.libDefault }

/-- An Options record with Development set and everything else left empty. -/
def devDefaultOpts : Options := { development := true }

/-- An Options record with every defaultable field left empty. -/
def emptyOpts : Options := {}

/-- An Options record with every field explicitly set to a non-default value. -/
def customOpts : Options :=
  { logLevel := "warn"
    logFileDir := "/var/log"
    appName := "svc"
    errorFileName := "e.log"
    warnFileName := "w.log"
    infoFileName := "i.log"
    debugFileName := "d.log"
    maxSize := 5
    maxBackups := 2
    maxAge := 3
    cutType := 1
    development := true }

/-- The Options record exercised by the repository's own test
(logger_test.go), with the time-based rotation strategy selected. -/
def timeCutOpts : Options :=
  { logLevel := "info"
    logFileDir := "../logs"
    appName := "logtool"
    maxSize := 30
    maxBackups := 7
    maxAge := 7
    cutType := 1
    development := true }

/-- An Options record with a level string the loader does not recognize. -/
def badLevelOpts : Options := { logLevel := "verbose" }

/-- A fresh world: a heap of zero-valued Options records and the
package-level logger as the package init leaves it. -/
def initialWorld : World :=
  { heap := fun _ => {}
    logger :=
      { optsPtr := 0
        zapConfig := zeroZapConfig
        inited := false
        logOutput := [] } }

/-- The effective level picked by loadCfg, as a chain of string tests. -/
theorem loadCfgZap_level (o : Options) :
    (loadCfgZap o).level =
      (if o.logLevel = "debug" then debugLevel
       else if o.logLevel = "info" then infoLevel
       else if o.logLevel = "warn" then warnLevel
       else if o.logLevel = "error" then errorLevel
       else if o.development then debugLevel else infoLevel) := by
  simp only [loadCfgZap, newDevelopmentConfig, newProductionConfig]
  split_ifs <;> rfl

/-- C4: for each severity S and record level L, the filter predicate for S
accepts L iff L is at least S and S is at least the configured minimum level;
moreover the four predicates are independent threshold gates, witnessed by a
single error-level record simultaneously satisfying all four when the minimum
level is debug. -/
theorem priority_threshold_characterization :
    (∀ (p : Priority) (minL lvl : Int),
      p.enabled minL lvl = true ↔ (lvl ≥ p.level ∧ p.level ≥ minL)) ∧
    (errPriority debugLevel errorLevel = true ∧
     warnPriority debugLevel errorLevel = true ∧
     infoPriority debugLevel errorLevel = true ∧
     debugPriority debugLevel errorLevel = true) := by
  constructor
  · intro p minL lvl
    cases p <;>
      simp only [Priority.enabled, Priority.level, errPriority, warnPriority,
        infoPriority, debugPriority, errorLevel, warnLevel, infoLevel,
        debugLevel, Bool.and_eq_true, decide_eq_true_eq] <;>
      omega
  · exact ⟨by decide, by decide, by decide, by decide⟩

/-- C2 counterexample: with Development true and LogLevel left empty, the
effective minimum level is debug, not info. -/
theorem dev_empty_level_is_debug :
    devDefaultOpts.logLevel = "" ∧
    (loadCfgZap devDefaultOpts).level = debugLevel ∧
    debugLevel ≠ infoLevel := by
  refine ⟨rfl, ?_, by decide⟩
  rw [loadCfgZap_level]
  decide

/-- C2 amended: when LogLevel is empty, the effective minimum level is the
base profile's default, namely debug when Development is true and info when
Development is false. -/
theorem empty_level_gets_profile_default (o : Options) (h : o.logLevel = "") :
    (loadCfgZap o).level = (if o.development then debugLevel else infoLevel) := by
  rw [loadCfgZap_level, h]
  simp

/-- Witness for C2's amended theorem at the concrete development options. -/
theorem empty_level_gets_profile_default_witness :
    (loadCfgZap devDefaultOpts).level =
      (if devDefaultOpts.development then debugLevel else infoLevel) :=
  empty_level_gets_profile_default devDefaultOpts rfl

/-- C9: the configuration loader is total: the resolved level always lies in
the four valid levels, and an unrecognized LogLevel string is silently
ignored, leaving the base profile's default level. -/
theorem loader_total_unrecognized_level_ignored (o : Options) :
    (loadCfgZap o).level ∈ [debugLevel, infoLevel, warnLevel, errorLevel] ∧
    (o.logLevel ∉ (["debug", "info", "warn", "error"] : List String) →
      (loadCfgZap o).level = (if o.development then debugLevel else infoLevel)) := by
  constructor
  · rw [loadCfgZap_level]
    split_ifs <;> simp
  · intro h
    simp only [List.mem_cons, List.mem_singleton, not_or, List.not_mem_nil,
      not_false_eq_true, and_true] at h
    rw [loadCfgZap_level]
    simp [h.1, h.2.1, h.2.2.1, h.2.2.2]

/-- Witness for C9 at options carrying the unrecognized level string. -/
theorem loader_total_unrecognized_level_ignored_witness :
    (loadCfgZap badLevelOpts).level ∈ [debugLevel, infoLevel, warnLevel, errorLevel] ∧
    (loadCfgZap badLevelOpts).level =
      (if badLevelOpts.development then debugLevel else infoLevel) :=
  ⟨(loader_total_unrecognized_level_ignored badLevelOpts).1,
   (loader_total_unrecognized_level_ignored badLevelOpts).2 (by decide)⟩

/-- C1 counterexample: with Development true and the level left at the dev
profile default (debug), the stdout console core gated by the warn predicate
is in the core list and accepts an error-level record, so the record is
written to the stdout console sink. -/
theorem error_record_reaches_stdout_console :
    Core.mk Encoder.console SinkId.stdoutConsole Priority.warn ∈ cores devDefaultOpts ∧
    coreAccepts (Core.mk Encoder.console SinkId.stdoutConsole Priority.warn)
      (loadCfgZap devDefaultOpts).level errorLevel = true ∧
    SinkId.stdoutConsole ∈
      sinksWritten devDefaultOpts (loadCfgZap devDefaultOpts).level errorLevel := by
  refine ⟨by decide, by decide, by decide⟩

/-- C1 amended: with Development true, an error-level record is accepted by
the stderr console core whenever the minimum level is at most error, and each
stdout console core accepts it precisely when that core's own severity is at
least the minimum level — the warn/info/debug gates are thresholds, so they
do accept error-level records whenever their severity clears the minimum. -/
theorem error_console_routing (o : Options) (hd : o.development = true) (minL : Int) :
    Core.mk Encoder.console SinkId.stderrConsole Priority.err ∈ cores o ∧
    Core.mk Encoder.console SinkId.stdoutConsole Priority.warn ∈ cores o ∧
    (errPriority minL errorLevel = true ↔ minL ≤ errorLevel) ∧
    (warnPriority minL errorLevel = true ↔ minL ≤ warnLevel) ∧
    (infoPriority minL errorLevel = true ↔ minL ≤ infoLevel) ∧
    (debugPriority minL errorLevel = true ↔ minL ≤ debugLevel) := by
  refine ⟨?_, ?_, ?_, ?_, ?_, ?_⟩
  · simp [cores, hd]
  · simp [cores, hd]
  · simp only [errPriority, errorLevel, Bool.and_eq_true, decide_eq_true_eq]
    constructor
    · intro h
      omega
    · intro h
      exact ⟨by omega, by omega⟩
  · simp only [warnPriority, errorLevel, warnLevel, Bool.and_eq_true, decide_eq_true_eq]
    constructor
    · intro h
      omega
    · intro h
      exact ⟨by omega, by omega⟩
  · simp only [infoPriority, errorLevel, infoLevel, Bool.and_eq_true, decide_eq_true_eq]
    constructor
    · intro h
      omega
    · intro h
      exact ⟨by omega, by omega⟩
  · simp only [debugPriority, errorLevel, debugLevel, Bool.and_eq_true, decide_eq_true_eq]
    constructor
    · intro h
      omega
    · intro h
      exact ⟨by omega, by omega⟩

/-- Witness for C1's amended theorem at the concrete development options with
the dev-default minimum level. -/
theorem error_console_routing_witness :
    Core.mk Encoder.console SinkId.stderrConsole Priority.err ∈ cores devDefaultOpts ∧
    (warnPriority debugLevel errorLevel = true ↔ debugLevel ≤ warnLevel) :=
  ⟨(error_console_routing devDefaultOpts rfl debugLevel).1,
   (error_console_routing devDefaultOpts rfl debugLevel).2.2.2.1⟩

/-- C3 counterexample: with the time-based strategy selected, the rotation
backend is configured with a rotation interval of one minute, not one hour. -/
theorem time_sink_rotation_is_minute :
    timeCutOpts.cutType ≠ 0 ∧
    (timeSinkConfig timeCutOpts "error.log").rotationTime = minuteDuration ∧
    minuteDuration ≠ hourDuration := by
  refine ⟨by decide, rfl, by decide⟩

/-- C3 amended: with the time-based strategy, the sink factory hands the
constructed rotation config through unchanged; that config sets the rotation
interval to one minute, the file-name pattern to an hourly-granularity
timestamp suffix, and retention to the max-age knob in days (MaxAge times 24
hours). -/
theorem time_sink_rotation_config (o : Options) (fName : String)
    (h : o.cutType ≠ 0) (r : RotateConfig) :
    makeSyncer o fName (Except.ok r) = Syncer.rotate r ∧
    (timeSinkConfig o fName).rotationTime = minuteDuration ∧
    (timeSinkConfig o fName).maxAge = o.maxAge * 24 * hourDuration ∧
    (timeSinkConfig o fName).pattern =
      o.logFileDir ++ sp ++ o.appName ++ "-" ++ fName ++ ".%Y_%m%d_%H" := by
  refine ⟨?_, rfl, rfl, rfl⟩
  simp [makeSyncer, h]

/-- Witness for C3's amended theorem at the repository test's options. -/
theorem time_sink_rotation_config_witness :
    makeSyncer timeCutOpts "error.log"
        (Except.ok (timeSinkConfig timeCutOpts "error.log")) =
      Syncer.rotate (timeSinkConfig timeCutOpts "error.log") ∧
    (timeSinkConfig timeCutOpts "error.log").rotationTime = minuteDuration :=
  ⟨(time_sink_rotation_config timeCutOpts "error.log" (by decide)
      (timeSinkConfig timeCutOpts "error.log")).1,
   (time_sink_rotation_config timeCutOpts "error.log" (by decide)
      (timeSinkConfig timeCutOpts "error.log")).2.1⟩

/-- C7: with the minimum level configured to warn and development mode on,
the tee holds eight cores and none of them accepts a debug-level record. -/
theorem warn_min_rejects_debug_everywhere (o : Options)
    (h : o.logLevel = "warn") (hd : o.development = true) :
    (cores o).length = 8 ∧
    (cores o).all (fun c => !coreAccepts c (loadCfgZap o).level debugLevel) = true ∧
    sinksWritten o (loadCfgZap o).level debugLevel = [] := by
  have hl : (loadCfgZap o).level = warnLevel := by
    rw [loadCfgZap_level, h]
    simp
  rw [hl]
  refine ⟨by simp [cores, hd], ?_, ?_⟩
  · simp [cores, hd]
    decide
  · simp [sinksWritten, cores, hd]
    decide

/-- Witness for C7 at concrete warn-level development options. -/
theorem warn_min_rejects_debug_everywhere_witness :
    (cores customOpts).length = 8 ∧
    (cores customOpts).all
      (fun c => !coreAccepts c (loadCfgZap customOpts).level debugLevel) = true ∧
    sinksWritten customOpts (loadCfgZap customOpts).level debugLevel = [] :=
  warn_min_rejects_debug_everywhere customOpts rfl rfl

/-- C5: a second InitLogger call, with any arguments, leaves the heap, the
installed options pointer, the resolved zap config and the inited flag exactly
as the first call left them, and only appends the already-initialized notice
to the log output. -/
theorem initLogger_second_call_noop (w : World) (cwd1 cwd2 : String)
    (c1 c2 : Option Nat) :
    (initLogger (initLogger w cwd1 c1) cwd2 c2).heap = (initLogger w cwd1 c1).heap ∧
    (initLogger (initLogger w cwd1 c1) cwd2 c2).logger.optsPtr =
      (initLogger w cwd1 c1).logger.optsPtr ∧
    (initLogger (initLogger w cwd1 c1) cwd2 c2).logger.zapConfig =
      (initLogger w cwd1 c1).logger.zapConfig ∧
    (initLogger (initLogger w cwd1 c1) cwd2 c2).logger.inited =
      (initLogger w cwd1 c1).logger.inited ∧
    (initLogger (initLogger w cwd1 c1) cwd2 c2).logger.logOutput =
      (initLogger w cwd1 c1).logger.logOutput ++
        ["[initLogger] zaplog already initialized"] := by
  have h1 : (initLogger w cwd1 c1).logger.inited = true := by
    by_cases hw : w.logger.inited = true <;> simp [initLogger, hw]
  set w1 := initLogger w cwd1 c1 with hw1
  simp [initLogger, h1]

/-- C6: sink-construction failure handling is asymmetric: on the time-based
path every rotation-backend construction error is silently discarded (the
four syncers become the nil handle and initialization completes), while an
initialization error from the builder panics the process, which on the
size-based path — whose sink construction is an infallible struct literal —
is the only failure mode. -/
theorem init_error_asymmetry :
    (∀ (o : Options) (e : String → String), o.cutType ≠ 0 →
      loggerInit o (fun f => Except.error (e f)) (Except.ok ()) =
        InitResult.done
          (Syncers.mk Syncer.nilSyncer Syncer.nilSyncer Syncer.nilSyncer
            Syncer.nilSyncer)) ∧
    (∀ (o : Options) (rotRes : String → Except String RotateConfig) (e : String),
      loggerInit o rotRes (Except.error e) = InitResult.panicked e) ∧
    (∀ (o : Options) (r : Except String RotateConfig) (fName : String),
      o.cutType = 0 → makeSyncer o fName r = Syncer.lumber (lumberConfig o fName)) := by
  refine ⟨?_, ?_, ?_⟩
  · intro o e h
    simp [loggerInit, setSyncers, makeSyncer, h]
  · intro o rotRes e
    rfl
  · intro o r fName h
    simp [makeSyncer, h]

/-- Witness for C6 at the repository test's time-based options and a failing
rotation constructor, plus a size-based record. -/
theorem init_error_asymmetry_witness :
    loggerInit timeCutOpts (fun _ => Except.error "rotate construction failed")
        (Except.ok ()) =
      InitResult.done
        (Syncers.mk Syncer.nilSyncer Syncer.nilSyncer Syncer.nilSyncer
          Syncer.nilSyncer) ∧
    loggerInit timeCutOpts (fun _ => Except.error "rotate construction failed")
        (Except.error "build failed") =
      InitResult.panicked "build failed" ∧
    makeSyncer emptyOpts "error.log" (Except.error "rotate construction failed") =
      Syncer.lumber (lumberConfig emptyOpts "error.log") :=
  ⟨init_error_asymmetry.1 timeCutOpts (fun _ => "rotate construction failed")
      (by decide),
   init_error_asymmetry.2.1 timeCutOpts
      (fun _ => Except.error "rotate construction failed") "build failed",
   init_error_asymmetry.2.2 emptyOpts (Except.error "rotate construction failed")
      "error.log" rfl⟩

/-- C8: loading fills each empty field among directory, app name, the four
per-level file names, size, backups and age with its documented default, and
leaves any explicitly-set field unchanged; level, cut type and development are
never touched by the defaulting pass. -/
theorem fillDefaults_spec (cwd : String) (o : Options) :
    ((o.logFileDir = "" → (fillDefaults cwd o).logFileDir = cwd ++ sp ++ "logs" ++ sp) ∧
     (o.logFileDir ≠ "" → (fillDefaults cwd o).logFileDir = o.logFileDir)) ∧
    ((o.appName = "" → (fillDefaults cwd o).appName = "app") ∧
     (o.appName ≠ "" → (fillDefaults cwd o).appName = o.appName)) ∧
    ((o.errorFileName = "" → (fillDefaults cwd o).errorFileName = "error.log") ∧
     (o.errorFileName ≠ "" → (fillDefaults cwd o).errorFileName = o.errorFileName)) ∧
    ((o.warnFileName = "" → (fillDefaults cwd o).warnFileName = "warn.log") ∧
     (o.warnFileName ≠ "" → (fillDefaults cwd o).warnFileName = o.warnFileName)) ∧
    ((o.infoFileName = "" → (fillDefaults cwd o).infoFileName = "info.log") ∧
     (o.infoFileName ≠ "" → (fillDefaults cwd o).infoFileName = o.infoFileName)) ∧
    ((o.debugFileName = "" → (fillDefaults cwd o).debugFileName = "debug.log") ∧
     (o.debugFileName ≠ "" → (fillDefaults cwd o).debugFileName = o.debugFileName)) ∧
    ((o.maxSize = 0 → (fillDefaults cwd o).maxSize = 100) ∧
     (o.maxSize ≠ 0 → (fillDefaults cwd o).maxSize = o.maxSize)) ∧
    ((o.maxBackups = 0 → (fillDefaults cwd o).maxBackups = 30) ∧
     (o.maxBackups ≠ 0 → (fillDefaults cwd o).maxBackups = o.maxBackups)) ∧
    ((o.maxAge = 0 → (fillDefaults cwd o).maxAge = 30) ∧
     (o.maxAge ≠ 0 → (fillDefaults cwd o).maxAge = o.maxAge)) ∧
    ((fillDefaults cwd o).logLevel = o.logLevel ∧
     (fillDefaults cwd o).cutType = o.cutType ∧
     (fillDefaults cwd o).development = o.development) := by
  refine ⟨⟨?_, ?_⟩, ⟨?_, ?_⟩, ⟨?_, ?_⟩, ⟨?_, ?_⟩, ⟨?_, ?_⟩, ⟨?_, ?_⟩,
    ⟨?_, ?_⟩, ⟨?_, ?_⟩, ⟨?_, ?_⟩, rfl, rfl, rfl⟩ <;>
  · intro h
    simp [fillDefaults, h]

/-- Witness for C8: the all-empty record gets the defaults, the fully
populated record keeps its values. -/
theorem fillDefaults_spec_witness :
    (fillDefaults "/wd" emptyOpts).appName = "app" ∧
    (fillDefaults "/wd" customOpts).appName = "svc" ∧
    (fillDefaults "/wd" emptyOpts).maxSize = 100 ∧
    (fillDefaults "/wd" customOpts).maxAge = 3 ∧
    (fillDefaults "/wd" emptyOpts).logFileDir = "/wd" ++ sp ++ "logs" ++ sp :=
  ⟨(fillDefaults_spec "/wd" emptyOpts).2.1.1 rfl,
   (fillDefaults_spec "/wd" customOpts).2.1.2 (by decide),
   (fillDefaults_spec "/wd" emptyOpts).2.2.2.2.2.2.1.1 rfl,
   (fillDefaults_spec "/wd" customOpts).2.2.2.2.2.2.2.2.1.2 (by decide),
   (fillDefaults_spec "/wd" emptyOpts).1.1 rfl⟩

/-- C10: a first InitLogger call given an Options pointer installs that
pointer in the logger and writes the resolved defaults back through it, so
the caller's record itself ends up with previously-empty fields overwritten
by the defaults. -/
theorem initLogger_mutates_caller_opts (w : World) (cwd : String) (p : Nat)
    (h : w.logger.inited = false) :
    (initLogger w cwd (some p)).logger.optsPtr = p ∧
    (initLogger w cwd (some p)).heap p = fillDefaults cwd (w.heap p) ∧
    ((w.heap p).logFileDir = "" →
      ((initLogger w cwd (some p)).heap p).logFileDir = cwd ++ sp ++ "logs" ++ sp) ∧
    ((w.heap p).appName = "" →
      ((initLogger w cwd (some p)).heap p).appName = "app") ∧
    ((w.heap p).errorFileName = "" →
      ((initLogger w cwd (some p)).heap p).errorFileName = "error.log") ∧
    ((w.heap p).warnFileName = "" →
      ((initLogger w cwd (some p)).heap p).warnFileName = "warn.log") ∧
    ((w.heap p).infoFileName = "" →
      ((initLogger w cwd (some p)).heap p).infoFileName = "info.log") ∧
    ((w.heap p).debugFileName = "" →
      ((initLogger w cwd (some p)).heap p).debugFileName = "debug.log") ∧
    ((w.heap p).maxSize = 0 →
      ((initLogger w cwd (some p)).heap p).maxSize = 100) ∧
    ((w.heap p).maxBackups = 0 →
      ((initLogger w cwd (some p)).heap p).maxBackups = 30) ∧
    ((w.heap p).maxAge = 0 →
      ((initLogger w cwd (some p)).heap p).maxAge = 30) := by
  have key : (initLogger w cwd (some p)).heap p = fillDefaults cwd (w.heap p) := by
    simp [initLogger, h]
  refine ⟨by simp [initLogger, h], key, ?_, ?_, ?_, ?_, ?_, ?_, ?_, ?_, ?_⟩ <;>
  · intro he
    rw [key]
    simp [fillDefaults, he]

/-- Witness for C10 at the fresh world, installing the record at address 3. -/
theorem initLogger_mutates_caller_opts_witness :
    (initLogger initialWorld "/wd" (some 3)).logger.optsPtr = 3 ∧
    ((initLogger initialWorld "/wd" (some 3)).heap 3).appName = "app" ∧
    ((initLogger initialWorld "/wd" (some 3)).heap 3).maxAge = 30 :=
  ⟨(initLogger_mutates_caller_opts initialWorld "/wd" 3 rfl).1,
   (initLogger_mutates_caller_opts initialWorld "/wd" 3 rfl).2.2.2.1 rfl,
   (initLogger_mutates_caller_opts initialWorld "/wd" 3 rfl).2.2.2.2.2.2.2.2.2.2 rfl⟩

end Zaplog
